import Mathlib

/-!
Shallow embedding of the customer-support message pipeline of the
Kerala-Sellers-Marketing repository, and proofs about it.

Text is modelled as `List Char` (a Python `str` is a sequence of code
points).  Confidence scores are modelled as rationals; the Python float
literals 0.5 / 0.7 / 0.8 / 1.0 used by the code are all exactly
representable.  Each definition is translated from the named source
function.
-/

namespace Support

/-- ASCII letter check, mirroring `0x41 <= c <= 0x5A or 0x61 <= c <= 0x7A`
in `support/utils/language.py`. -/
def isAsciiLetter (c : Char) : Bool :=
  (0x41 ≤ c.toNat && c.toNat ≤ 0x5A) || (0x61 ≤ c.toNat && c.toNat ≤ 0x7A)

/-- ASCII digit, the `\d` class of the PII patterns restricted to ASCII
(the repository only ever feeds ASCII digits to these patterns). -/
def isAsciiDigit (c : Char) : Bool :=
  0x30 ≤ c.toNat && c.toNat ≤ 0x39

/-- Word character for the regex `\b` assertion: `[A-Za-z0-9_]`. -/
def isWordChar (c : Char) : Bool :=
  isAsciiLetter c || isAsciiDigit c || c = '_'

/-- Whitespace as recognised by Python `str.strip()` / `str.isspace()`
and by the regex class `\s` (Unicode whitespace code points). -/
def pyIsSpace (c : Char) : Bool :=
  c.toNat ∈ [0x09, 0x0A, 0x0B, 0x0C, 0x0D, 0x1C, 0x1D, 0x1E, 0x1F, 0x20,
    0x85, 0xA0, 0x1680, 0x2000, 0x2001, 0x2002, 0x2003, 0x2004, 0x2005,
    0x2006, 0x2007, 0x2008, 0x2009, 0x200A, 0x2028, 0x2029, 0x202F,
    0x205F, 0x3000]

/-- Python `str.strip()`: drop whitespace from both ends. -/
def pyStrip (l : List Char) : List Char :=
  ((l.dropWhile pyIsSpace).reverse.dropWhile pyIsSpace).reverse

/-- Python `str.lower()` restricted to ASCII case folding
(`Char.toLower`).  Every keyword, language code and template in the
repository is ASCII or Malayalam, and Malayalam has no case, so ASCII
folding is the behaviour the code relies on. -/
def lowerL (l : List Char) : List Char := l.map Char.toLower

/-- Malayalam-script code point, from the `malayalam_ranges` table of
`detect_language`: the Malayalam block 0x0D00-0x0D7F plus the zero width
non-joiner / joiner 0x200C-0x200D. -/
def isMalayalamChar (c : Char) : Bool :=
  (0x0D00 ≤ c.toNat && c.toNat ≤ 0x0D7F) || (0x200C ≤ c.toNat && c.toNat ≤ 0x200D)

/-- Embedding of `detect_language` from `support/utils/language.py`: empty or
whitespace-only text defaults to en; otherwise scan every character for
the Malayalam ranges and for ASCII letters and combine the two flags. -/
def detect_language (text : List Char) : List Char :=
  if pyStrip text = [] then "en".toList
  else
    let hasMalayalam := text.any isMalayalamChar
    let hasAsciiLetters := text.any isAsciiLetter
    if hasMalayalam && hasAsciiLetters then "mixed".toList
    else if hasMalayalam then "ml".toList
    else if hasAsciiLetters then "en".toList
    else "en".toList

/-- Embedding of `determine_response_language` from `support/utils/language.py`. -/
def determine_response_language (conversationLanguage detected : List Char) : List Char :=
  if detected = "en".toList ∨ detected = "ml".toList then detected
  else if conversationLanguage ≠ [] then conversationLanguage else "en".toList

/-- The `INTENT_KEYWORDS` table of `support/utils/intent.py`. -/
def INTENT_KEYWORDS (intent lang : List Char) : List (List Char) :=
  if intent = "order_status".toList then
    if lang = "en".toList then
      ["order".toList, "track".toList, "delivery".toList, "shipped".toList,
       "status".toList, "where".toList]
    else if lang = "ml".toList then
      ["ഓർഡർ".toList, "ട്രാക്ക്".toList, "ഡെലിവറി".toList, "എത്തിയോ".toList,
       "സ്ഥിതി".toList, "എവിടെയാണ്".toList]
    else []
  else if intent = "return_refund".toList then
    if lang = "en".toList then
      ["return".toList, "refund".toList, "replace".toList, "damaged".toList,
       "cancel".toList]
    else if lang = "ml".toList then
      ["റിട്ടേൺ".toList, "റീഫണ്ട്".toList, "തിരികെ".toList, "നശിച്ചു".toList,
       "ക്യാൻസൽ".toList]
    else []
  else if intent = "policy".toList then
    if lang = "en".toList then
      ["policy".toList, "rules".toList, "terms".toList, "conditions".toList]
    else if lang = "ml".toList then
      ["നയം".toList, "നയങ്ങൾ".toList, "നിയമങ്ങൾ".toList, "വ്യവസ്ഥകൾ".toList]
    else []
  else if intent = "escalation".toList then
    if lang = "en".toList then
      ["complaint".toList, "talk to agent".toList, "human".toList,
       "support executive".toList, "escalate".toList]
    else if lang = "ml".toList then
      ["പരാതി".toList, "മനുഷ്യൻ".toList, "മനുഷ്യനോട്".toList, "കസ്റ്റമർ കെയർ".toList,
       "കസ്റ്റമർ കെയറിനെ".toList, "എസ്കലേറ്റ്".toList]
    else []
  else []

/-- The language value actually used for keyword lookup by
`detect_intent`: lower-cased, then folded to en when unrecognised. -/
def normalizeIntentLanguage (language : List Char) : List Char :=
  let language := lowerL language
  if language ≠ "en".toList ∧ language ≠ "ml".toList then "en".toList else language

/-- List prefix test used to implement the Python substring operator. -/
def leadsWith : List Char → List Char → Bool
  | [], _ => true
  | _ :: _, [] => false
  | a :: n, b :: h => a == b && leadsWith n h

/-- Python `needle in haystack`: contiguous substring containment. -/
def containsSub (needle : List Char) : List Char → Bool
  | [] => leadsWith needle []
  | b :: h => leadsWith needle (b :: h) || containsSub needle h

/-- One keyword-scan pass of `detect_intent`: does any keyword of the
given intent (lower-cased) occur as a substring of the lower-cased
text? -/
def intentMatches (intent language text : List Char) : Bool :=
  (INTENT_KEYWORDS intent (normalizeIntentLanguage language)).any
    (fun keyword => containsSub (lowerL keyword) (lowerL text))

/-- Embedding of `detect_intent` from `support/utils/intent.py`: empty / whitespace
text is general, otherwise the categories are scanned in the fixed
priority order escalation, policy, return_refund, order_status; the
first category with a matching keyword wins; general is the fallback. -/
def detect_intent (text : List Char) (language : List Char) : List Char :=
  if pyStrip text = [] then "general".toList
  else if intentMatches "escalation".toList language text then "escalation".toList
  else if intentMatches "policy".toList language text then "policy".toList
  else if intentMatches "return_refund".toList language text then "return_refund".toList
  else if intentMatches "order_status".toList language text then "order_status".toList
  else "general".toList

/-- The context dictionary passed to `generate_response`: the three
placeholder keys the template table uses.  A `none` field means the key
is absent from the callers dict and the language default applies. -/
structure RespContext where
  status : Option (List Char) := none
  date : Option (List Char) := none
  policyType : Option (List Char) := none

/-- Embedding of `generate_response` from `support/utils/responses.py`.  The template
table is inlined with its placeholder substitution applied: template
selection is `templates.get(language, templates[en])` followed by
`lang_templates.get(intent, general)`, the defaults are chosen by
`language == en`, and the provided context overrides the defaults.  The
`KeyError` branch of the source is dead code for this table, since every
placeholder key is always present in the merged context. -/
def generate_response (intent language : List Char) (context : RespContext) : List Char :=
  let statusV := context.status.getD
    (if language = "en".toList then "being processed".toList else "പ്രോസസ്സ് ചെയ്യുന്നു".toList)
  let dateV := context.date.getD
    (if language = "en".toList then "soon".toList else "ഉടൻ".toList)
  let policyV := context.policyType.getD
    (if language = "en".toList then "general".toList else "പൊതുവായ".toList)
  if language = "ml".toList then
    if intent = "order_status".toList then
      "നിങ്ങളുടെ ഓർഡർ നിലവിൽ ".toList ++ statusV ++ " ആണ്.".toList
    else if intent = "return_refund".toList then
      "ഡെലിവറി കഴിഞ്ഞ് 7 ദിവസത്തിനുള്ളിൽ റിട്ടേൺ അഭ്യർത്ഥിക്കാം.".toList
    else if intent = "policy".toList then
      policyV ++ " നയം ഇതാണ്.".toList
    else if intent = "escalation".toList then
      "നിങ്ങളെ കസ്റ്റമർ കെയറുമായി ബന്ധിപ്പിക്കുന്നു.".toList
    else
      "എനിക്ക് നിങ്ങളെ എങ്ങനെ സഹായിക്കാം?".toList
  else
    if intent = "order_status".toList then
      "Your order is currently ".toList ++ statusV ++ ". Expected delivery: ".toList
        ++ dateV ++ ".".toList
    else if intent = "return_refund".toList then
      "You can request a return within 7 days of delivery.".toList
    else if intent = "policy".toList then
      "Here is our ".toList ++ policyV ++ " policy.".toList
    else if intent = "escalation".toList then
      "I am connecting you to a support executive.".toList
    else
      "How can I help you today?".toList

/-!
The PII regular expressions of `LLMClient.PII_PATTERNS` are embedded by
a small backtracking matcher over a token list.  Each of the four
patterns is a sequence of word-boundary assertions, literal characters
and character classes with greedy counted repetition, which is exactly
what the tokens below express.  Greedy repetition tries the longest
feasible count first and backtracks downwards, matching the Python
engine on these patterns.
-/

/-- One regex token: a literal character, a character class with a
greedy repetition range (upper bound `none` means unbounded), or the
word-boundary assertion. -/
inductive RTok where
  | lit : Char → RTok
  | cls : (Char → Bool) → Nat → Option Nat → RTok
  | bnd : RTok

/-- The regex `\b` assertion between the previously consumed character
and the next character (start and end of string count as non-word). -/
def isBoundaryAt (prev : Option Char) (s : List Char) : Bool :=
  (match prev with | some c => isWordChar c | none => false)
    != (match s with | a :: _ => isWordChar a | [] => false)

/-- Match a token sequence at the front of `s`, with `prev` the character
just before `s` in the whole subject.  Returns the number of characters
consumed by the first match in the backtracking order of the Python
engine (greedy repetitions try the longest count first). -/
def matchToks : List RTok → Option Char → List Char → Option Nat
  | [] => fun _ _ => some 0
  | t :: ts =>
    let recur := matchToks ts
    fun prev s =>
      match t with
      | .lit c =>
        match s with
        | [] => none
        | a :: rest => if a == c then (recur (some a) rest).map (· + 1) else none
      | .bnd =>
        if isBoundaryAt prev s then recur prev s else none
      | .cls p lo hi =>
        let run := (s.takeWhile p).length
        let maxK := match hi with | none => run | some h => min run h
        if lo ≤ maxK then
          (List.range (maxK + 1 - lo)).findSome? (fun i =>
            let k := maxK - i
            let prev2 := if k = 0 then prev else (s.take k).getLast?
            (recur prev2 (s.drop k)).map (· + k))
        else none

/-- The `re.finditer` recursion for a token pattern: scan left to right, at
each position try a match; on success record the span and resume after
it (an empty match advances by one position, as in Python).  The fuel
argument only forces structural recursion; each step consumes at least
one character, so fuel `s.length` never runs out. -/
def scanFuel (toks : List RTok) : Nat → Option Char → Nat → List Char → List (Nat × Nat)
  | 0, _, _, _ => []
  | _ + 1, _, _, [] => []
  | fuel + 1, prev, pos, a :: rest =>
    match matchToks toks prev (a :: rest) with
    | some n =>
      if n = 0 then (pos, pos) :: scanFuel toks fuel (some a) (pos + 1) rest
      else
        (pos, pos + n) :: scanFuel toks fuel ((a :: rest).take n).getLast? (pos + n)
          ((a :: rest).drop n)
    | none => scanFuel toks fuel (some a) (pos + 1) rest

/-- Character class of the local part of the email pattern. -/
def emailLocalChar (c : Char) : Bool :=
  isAsciiLetter c || isAsciiDigit c || c ∈ ['.', '_', '%', '+', '-']

/-- Character class of the domain part of the email pattern. -/
def emailDomainChar (c : Char) : Bool :=
  isAsciiLetter c || isAsciiDigit c || c ∈ ['.', '-']

/-- Character class of the final label of the email pattern; the source
class is written with a literal bar between the letter ranges, so the
bar character is part of the class. -/
def emailTldChar (c : Char) : Bool :=
  isAsciiLetter c || c = '|'

/-- Email pattern of `PII_PATTERNS`. -/
def emailPat : List RTok :=
  [.bnd, .cls emailLocalChar 1 none, .lit '@', .cls emailDomainChar 1 none,
   .lit '.', .cls emailTldChar 2 none, .bnd]

/-- Ten-digit phone-number pattern of `PII_PATTERNS`. -/
def phonePat : List RTok :=
  [.bnd, .cls isAsciiDigit 10 (some 10), .bnd]

/-- Sixteen-digit grouped card pattern of `PII_PATTERNS`. -/
def cardPat : List RTok :=
  [.bnd, .cls isAsciiDigit 4 (some 4), .cls pyIsSpace 0 (some 1),
   .cls isAsciiDigit 4 (some 4), .cls pyIsSpace 0 (some 1),
   .cls isAsciiDigit 4 (some 4), .cls pyIsSpace 0 (some 1),
   .cls isAsciiDigit 4 (some 4), .bnd]

/-- Generic 12 to 19 digit run pattern of `PII_PATTERNS`. -/
def longNumberPat : List RTok :=
  [.bnd, .cls isAsciiDigit 12 (some 19), .bnd]

/-- The four PII patterns in the order the source lists them. -/
def PII_PATTERNS : List (List RTok) := [emailPat, phonePat, cardPat, longNumberPat]

/-- All match spans of one pattern over a subject string. -/
def findMatchSpans (toks : List RTok) (s : List Char) : List (Nat × Nat) :=
  scanFuel toks s.length none 0 s

/-- The replacement list collected by `_sanitize_prompt`: the spans of
every pattern, in pattern order, all computed on the original string. -/
def collectReplacements (s : List Char) : List (Nat × Nat) :=
  (PII_PATTERNS.map (fun p => findMatchSpans p s)).flatten

/-- The replacement marker. -/
def REDACTED : List Char := "[REDACTED]".toList

/-- The order used by `sorted(replacements, reverse=True)`: descending
lexicographic order on the span pair (the third tuple component is the
constant marker on every entry, so it never discriminates). -/
def spanGE (x y : Nat × Nat) : Prop :=
  y.1 < x.1 ∨ (x.1 = y.1 ∧ y.2 ≤ x.2)

instance : DecidableRel spanGE := fun x y => by
  unfold spanGE; infer_instance

/-- Embedding of `LLMClient._sanitize_prompt`: collect the spans of all four PII
patterns, sort them in reverse order (Python uses a stable sort; ties
are identical spans here, so any sorted permutation is the same
replacement list), and splice the marker over each span from right to
left. -/
def sanitize_prompt (s : List Char) : List Char :=
  (List.insertionSort spanGE (collectReplacements s)).foldl
    (fun acc r => acc.take r.1 ++ REDACTED ++ acc.drop r.2) s

/-- Embedding of `LLMClient._truncate_prompt`: hard cap at four characters per
configured token. -/
def truncate_prompt (maxTokens : Nat) (prompt : List Char) : List Char :=
  let maxChars := maxTokens * 4
  if prompt.length ≤ maxChars then prompt else prompt.take maxChars

/-- The configuration fields of `LLMClient` that affect reply generation
(`api_key`, `model` and `timeout` only parameterise the external calls,
which are abstracted by `LLMEnv`). -/
structure LLMConfig where
  provider : List Char
  maxTokens : Nat

/-- Abstract outcomes of the external provider calls.  For the two real
providers, `none` models any exception (import failure, API error,
timeout: the source maps them all to `(None, 0.0)`), and `some (content,
clean)` models a response with its raw text and whether the provider
signalled a clean stop (`finish_reason == stop` / `stop_reason ==
end_turn`).  `mockIdx` models the `random.choice` over the three mock
responses. -/
structure LLMEnv where
  openaiResp : Option (List Char × Bool)
  anthropicResp : Option (List Char × Bool)
  mockIdx : Fin 3

/-- Embedding of `LLMClient._call_openai_api`. -/
def call_openai_api (env : LLMEnv) : Option (List Char) × ℚ :=
  match env.openaiResp with
  | none => (none, 0)
  | some (content, clean) => (some (pyStrip content), if clean then 1 else 0.7)

/-- Embedding of `LLMClient._call_anthropic_api`. -/
def call_anthropic_api (env : LLMEnv) : Option (List Char) × ℚ :=
  match env.anthropicResp with
  | none => (none, 0)
  | some (content, clean) => (some (pyStrip content), if clean then 1 else 0.7)

/-- The mock response table of `LLMClient._call_mock_api`
(`language == ml` selects the Malayalam list, anything else the English
list). -/
def mockResponses (language : List Char) : List (List Char) :=
  if language = "ml".toList then
    ["താങ്കളുടെ ചോദ്യത്തിന് നന്ദി. എന്തെങ്കിലും മറ്റ് സഹായം ആവശ്യമുണ്ടോ?".toList,
     "വിവരങ്ങൾക്ക് നന്ദി. ഇനിയും എന്തെങ്കിലും സംശയമുണ്ടെങ്കിൽ ചോദിക്കുക.".toList,
     "സഹായത്തിന് താങ്കളെ സന്തോഷത്തോടെ സ്വാഗതം ചെയ്യുന്നു.".toList]
  else
    ["Thank you for your question. Is there anything else I can help you with?".toList,
     "Thanks for the information. Let me know if you have any other questions.".toList,
     "I\x27m happy to help you. Please feel free to ask if you need any assistance.".toList]

/-- Embedding of `LLMClient._call_mock_api`: picks one of three canned responses with
confidence 0.8; the message text is received but not inspected. -/
def call_mock_api (env : LLMEnv) (_userMessage language : List Char) : List Char × ℚ :=
  ((mockResponses language).getD env.mockIdx.val [], 0.8)

/-- A message row as seen by the context builder: sender, text and the
stored intent (`query_type`). -/
structure CtxMessage where
  sender : List Char
  message : List Char
  queryType : List Char
  deriving DecidableEq

/-- The message history of one conversation, in creation-time order
(oldest first); this is the total order the ORM query
`order_by(-created_at)` inverts. -/
structure ConversationHistory where
  msgs : List CtxMessage

/-- The queryset filter of `_build_conversation_context`:
`query_type = general` and `sender in [user, ai]`. -/
def contextQualifies (m : CtxMessage) : Bool :=
  m.queryType == "general".toList
    && (m.sender == "user".toList || m.sender == "ai".toList)

/-- Embedding of `LLMClient._build_conversation_context`: filter to general-intent
user/ai messages, order descending, keep 10, restore chronological
order, and render `User:` / `Assistant:` lines joined by newlines with a
trailing blank line.  A missing conversation gives the empty string (the
`except` branch of the source guards the ORM access, which the pure
embedding cannot fail at). -/
def build_conversation_context (conversation : Option ConversationHistory) : List Char :=
  match conversation with
  | none => []
  | some conv =>
    let messages := ((conv.msgs.filter contextQualifies).reverse.take 10).reverse
    if messages = [] then []
    else
      let contextLines := messages.filterMap (fun m =>
        if m.sender == "user".toList then some ("User: ".toList ++ m.message)
        else if m.sender == "ai".toList then some ("Assistant: ".toList ++ m.message)
        else none)
      List.intercalate "\n".toList contextLines ++ "\n\n".toList

/-- Embedding of `LLMClient._prepare_prompts`. -/
def prepare_prompts (userMessage language conversationContext : List Char) :
    List Char × List Char :=
  let systemPrompt :=
    ("You are a polite and helpful customer support assistant for Kerala Sellers. "
      ++ "Respond in a friendly, professional manner. Keep responses concise and helpful.").toList
    ++ (if language = "ml".toList then " Respond in Malayalam language.".toList
        else " Respond in English language.".toList)
  let userPrompt :=
    conversationContext ++ "Customer: ".toList ++ userMessage ++ "\n\nAssistant:".toList
  (systemPrompt, userPrompt)

/-- The prompt-preparation prefix of `LLMClient.generate_reply` (lines
293 to 308 of `support/services/llm.py`): sanitize and truncate the user
message, build and sanitize the optional conversation context, compose
the prompts, and truncate the final user prompt.  The second component
is the user-turn text handed to the provider call. -/
def prompts_for (cfg : LLMConfig) (userMessage language : List Char)
    (conversation : Option ConversationHistory) : List Char × List Char :=
  let sanitizedMessage := sanitize_prompt userMessage
  let truncatedMessage := truncate_prompt cfg.maxTokens sanitizedMessage
  let conversationContext :=
    match conversation with
    | none => []
    | some _ => sanitize_prompt (build_conversation_context conversation)
  let prompts := prepare_prompts truncatedMessage language conversationContext
  (prompts.1, truncate_prompt cfg.maxTokens prompts.2)

/-- Embedding of `LLMClient.generate_reply`: dispatch on the configured provider,
treat a missing response as failure, and fall back to the deterministic
general template with confidence 0.5.  The mock provider receives the
raw (unsanitized) user message, exactly as in the source. -/
def generate_reply (cfg : LLMConfig) (env : LLMEnv) (userMessage language : List Char)
    (conversation : Option ConversationHistory) : List Char × ℚ × Bool :=
  let _prompts := prompts_for cfg userMessage language conversation
  let result : Option (List Char) × ℚ :=
    if cfg.provider = "openai".toList then call_openai_api env
    else if cfg.provider = "anthropic".toList then call_anthropic_api env
    else if cfg.provider = "mock".toList then
      let mock := call_mock_api env userMessage language
      (some mock.1, mock.2)
    else (none, 0)
  match result.1 with
  | none => (generate_response "general".toList language {}, 0.5, true)
  | some t => (t, result.2, false)

/-- The `SupportConversation` fields read or written by
`SupportMessageView.post` (`support/models.py`): language, message
counter, escalated flag and escalation reason.  The model has no status
column; the escalated flag is its only lifecycle state. -/
structure Conversation where
  language : List Char
  messageCount : Nat
  escalated : Bool
  escalationReason : Option (List Char)
  deriving DecidableEq

/-- A stored `SupportMessage` row as created by the view. -/
structure MessageRec where
  sender : List Char
  message : List Char
  languageDetected : List Char
  queryType : List Char
  aiConfidence : Option ℚ

/-- The latest order of the conversation user, as consumed by the
`order_status` branch; `estimatedDelivery` is the already-formatted
date string the view would produce with `strftime`. -/
structure OrderInfo where
  status : List Char
  estimatedDelivery : Option (List Char)

/-- The request body of `POST .../messages/`: text, sender (defaulted to
`user` by the view) and optional explicit `query_type`. -/
structure PostRequest where
  message : List Char
  sender : List Char
  queryType : Option (List Char)

/-- The collaborators of `SupportMessageView.post`: the LLM client
configuration and provider outcomes, the latest order of the user, and
the stored policy types (in table order). -/
structure PostEnv where
  cfg : LLMConfig
  llm : LLMEnv
  latestOrder : Option OrderInfo
  policyTypes : List (List Char)

/-- Outcome of `SupportMessageView.post`: a 400 rejection, or the
created records plus the updated conversation and the response fields. -/
inductive PostResult where
  | rejected (error : List Char)
  | created (conversation : Conversation) (userMessage : MessageRec)
      (aiMessage : Option MessageRec)
      (detectedLanguage responseLanguage detectedIntent : List Char)

/-- Whether the request was rejected. -/
def PostResult.isRejected : PostResult → Bool
  | .rejected _ => true
  | .created .. => false

/-- The conversation state after the request, when it was accepted. -/
def PostResult.conversationAfter : PostResult → Option Conversation
  | .rejected _ => none
  | .created conv .. => some conv

/-- The stored user message, when the request was accepted. -/
def PostResult.storedMessage : PostResult → Option MessageRec
  | .rejected _ => none
  | .created _ m .. => some m

/-- The stored automated reply, when one was generated. -/
def PostResult.aiReply : PostResult → Option MessageRec
  | .rejected _ => none
  | .created _ _ ai .. => ai

/-- The conversation-state mutation of `SupportMessageView.post` before
the user message is stored: language update (first message sets the
language, later non-mixed detections overwrite it), the escalated flag
and reason on escalation intent, and the message-counter increment. -/
def updated_conversation (conversation : Conversation)
    (messageText detectedLanguage detectedIntent : List Char) : Conversation :=
  let conversation :=
    if conversation.messageCount = 0 then
      { conversation with language := detectedLanguage }
    else if detectedLanguage ≠ "mixed".toList then
      { conversation with language := detectedLanguage }
    else conversation
  let conversation :=
    if detectedIntent = "escalation".toList then
      { conversation with escalated := true, escalationReason := some messageText }
    else conversation
  { conversation with messageCount := conversation.messageCount + 1 }

/-- The template-context lookups of the deterministic branch of
`SupportMessageView.post`: the latest order enriches `order_status`, a
substring-matched policy type enriches `policy`, all other intents get
an empty context. -/
def deterministic_context (env : PostEnv) (messageText detectedIntent : List Char) :
    RespContext :=
  if detectedIntent = "order_status".toList then
    match env.latestOrder with
    | none => {}
    | some o => { status := some o.status, date := o.estimatedDelivery }
  else if detectedIntent = "policy".toList then
    { policyType :=
        env.policyTypes.find? (fun p => containsSub (lowerL p) (lowerL messageText)) }
  else {}

/-- The reply-generation branch of `SupportMessageView.post` (lines 411
to 455 of `support/views.py`): the LLM path for `general` intent, the
deterministic template path (confidence 1.0) for every other intent. -/
def ai_reply_for (env : PostEnv)
    (messageText responseLanguage detectedIntent : List Char) : List Char × ℚ :=
  if detectedIntent = "general".toList then
    let r := generate_reply env.cfg env.llm messageText responseLanguage none
    (r.1, r.2.1)
  else
    (generate_response detectedIntent responseLanguage
      (deterministic_context env messageText detectedIntent), 1)

/-- Embedding of `SupportMessageView.post` from `support/views.py` (the
message-ingestion endpoint): validate non-empty text, detect language
and intent, update the conversation, store the user message, and,
whenever the sender is `user`, generate and store an automated reply.
The view never consults the escalated flag before generating the
reply. -/
def support_message_post (conversation : Conversation) (req : PostRequest)
    (env : PostEnv) : PostResult :=
  if req.message = [] then .rejected "Message text is required".toList
  else
    let detectedLanguage := detect_language req.message
    let detectedIntent :=
      match req.queryType with
      | none => detect_intent req.message detectedLanguage
      | some q => q
    let responseLanguage := determine_response_language conversation.language detectedLanguage
    let conversation2 :=
      updated_conversation conversation req.message detectedLanguage detectedIntent
    let userMessage : MessageRec :=
      ⟨req.sender, req.message, detectedLanguage, detectedIntent, none⟩
    if req.sender = "user".toList then
      let aiPair := ai_reply_for env req.message responseLanguage detectedIntent
      .created { conversation2 with messageCount := conversation2.messageCount + 1 }
        userMessage
        (some ⟨"ai".toList, aiPair.1, responseLanguage, detectedIntent, some aiPair.2⟩)
        detectedLanguage responseLanguage detectedIntent
    else
      .created conversation2 userMessage none detectedLanguage responseLanguage
        detectedIntent

/-!  Specification-side helper definitions used by the theorems below.
They are not part of the embedding; each one names a quantity the spec
talks about (the context window, the ascending replacement spans, the
simultaneous-replacement rendering of the sanitizer). -/

/-- The windowed message selection of the context builder: the filtered
messages, keeping the 10 most recent, in chronological order.  This is
the `messages` value of `_build_conversation_context`. -/
def contextWindow (conv : ConversationHistory) : List CtxMessage :=
  ((conv.msgs.filter contextQualifies).reverse.take 10).reverse

/-- The rendered line for one included context message. -/
def contextLine (m : CtxMessage) : List Char :=
  if m.sender == "user".toList then "User: ".toList ++ m.message
  else "Assistant: ".toList ++ m.message

/-- Adjacent spans in the list do not overlap (each ends at or before
the next begins). -/
def spansSeparated : List (Nat × Nat) → Bool
  | [] => true
  | [_] => true
  | x :: y :: rest => decide (x.2 ≤ y.1) && spansSeparated (y :: rest)

/-- The replacement spans of `_sanitize_prompt` in ascending order: the
reverse of the descending sort the code applies. -/
def ascSpans (s : List Char) : List (Nat × Nat) :=
  (List.insertionSort spanGE (collectReplacements s)).reverse

/-- Simultaneous replacement: splice the marker over each span of an
ascending span list, keeping everything between the spans.  `c` is the
cursor position already emitted. -/
def redactSpans : Nat → List (Nat × Nat) → List Char → List Char
  | c, [], s => s.drop c
  | c, (a, b) :: rest, s => (s.drop c).take (a - c) ++ REDACTED ++ redactSpans b rest s

/-!  Character- and string-level facts. -/

lemma char_toLower_toNat (c : Char) :
    (Char.toLower c).toNat =
      if 65 ≤ c.toNat ∧ c.toNat ≤ 90 then c.toNat + 32 else c.toNat := by
  unfold Char.toLower
  split
  · rename_i h
    rw [if_pos h]
    unfold Char.ofNat
    split
    · rfl
    · omega
  · rename_i h
    rw [if_neg h]

lemma pyIsSpace_iff {c : Char} :
    pyIsSpace c = true ↔
      c.toNat ∈ [0x09, 0x0A, 0x0B, 0x0C, 0x0D, 0x1C, 0x1D, 0x1E, 0x1F, 0x20,
        0x85, 0xA0, 0x1680, 0x2000, 0x2001, 0x2002, 0x2003, 0x2004, 0x2005,
        0x2006, 0x2007, 0x2008, 0x2009, 0x200A, 0x2028, 0x2029, 0x202F,
        0x205F, 0x3000] := by
  simp [pyIsSpace]

lemma pyIsSpace_toLower (c : Char) : pyIsSpace (Char.toLower c) = pyIsSpace c := by
  rcases hb : pyIsSpace c with _ | _
  · rw [← hb]
    by_contra hne
    have h1 : pyIsSpace (Char.toLower c) = true := by
      revert hne; rcases pyIsSpace (Char.toLower c) with _ | _ <;> simp [hb]
    rw [pyIsSpace_iff] at h1
    rw [char_toLower_toNat] at h1
    have h2 : ¬ pyIsSpace c = true := by simp [hb]
    rw [pyIsSpace_iff] at h2
    simp only [List.mem_cons, List.not_mem_nil, or_false] at h1 h2
    split at h1 <;> omega
  · rw [pyIsSpace_iff] at hb ⊢
    rw [char_toLower_toNat]
    simp only [List.mem_cons, List.not_mem_nil, or_false] at hb ⊢
    split <;> omega

lemma isAsciiLetter_not_space {c : Char} (h : isAsciiLetter c = true) :
    pyIsSpace c = false := by
  simp only [isAsciiLetter, Bool.or_eq_true, Bool.and_eq_true, decide_eq_true_eq] at h
  rcases hb : pyIsSpace c with _ | _
  · rfl
  · exfalso
    rw [pyIsSpace_iff] at hb
    simp only [List.mem_cons, List.not_mem_nil, or_false] at hb
    omega

lemma isMalayalamChar_not_space {c : Char} (h : isMalayalamChar c = true) :
    pyIsSpace c = false := by
  simp only [isMalayalamChar, Bool.or_eq_true, Bool.and_eq_true, decide_eq_true_eq] at h
  rcases hb : pyIsSpace c with _ | _
  · rfl
  · exfalso
    rw [pyIsSpace_iff] at hb
    simp only [List.mem_cons, List.not_mem_nil, or_false] at hb
    omega

lemma isAsciiLetter_not_malayalam {c : Char} (h : isAsciiLetter c = true) :
    isMalayalamChar c = false := by
  simp only [isAsciiLetter, Bool.or_eq_true, Bool.and_eq_true, decide_eq_true_eq] at h
  rcases hb : isMalayalamChar c with _ | _
  · rfl
  · exfalso
    simp only [isMalayalamChar, Bool.or_eq_true, Bool.and_eq_true, decide_eq_true_eq] at hb
    omega

lemma pyStrip_eq_nil_iff {l : List Char} :
    pyStrip l = [] ↔ ∀ c ∈ l, pyIsSpace c = true := by
  unfold pyStrip
  rw [List.reverse_eq_nil_iff, List.dropWhile_eq_nil_iff]
  constructor
  · intro h c hc
    rcases List.mem_append.mp ((List.takeWhile_append_dropWhile (p := pyIsSpace) (l := l)) ▸ hc) with h1 | h1
    · exact List.mem_takeWhile_imp h1
    · exact h c (List.mem_reverse.mpr h1)
  · intro h c hc
    exact h c (List.dropWhile_sublist _ |>.subset (List.mem_reverse.mp hc))

/-- C6: language detection is total and deterministic: ASCII-letter-only
text yields en; text whose characters all lie in the local script
(Malayalam block or ZWJ/ZWNJ) yields ml; text containing both classes
yields mixed; and letter-free text (empty, whitespace-only, digits or
punctuation only) yields en. -/
theorem claim_C6 (text : List Char) :
    ((∀ c ∈ text, isAsciiLetter c = true) → detect_language text = "en".toList)
  ∧ (text ≠ [] → (∀ c ∈ text, isMalayalamChar c = true) →
      detect_language text = "ml".toList)
  ∧ ((∃ c ∈ text, isMalayalamChar c = true) → (∃ c ∈ text, isAsciiLetter c = true) →
      detect_language text = "mixed".toList)
  ∧ ((∀ c ∈ text, isMalayalamChar c = false ∧ isAsciiLetter c = false) →
      detect_language text = "en".toList) := by
  refine ⟨?_, ?_, ?_, ?_⟩
  · intro h
    by_cases hs : pyStrip text = []
    · simp [detect_language, hs]
    · have hmal : text.any isMalayalamChar = false := by
        simp only [List.any_eq_false]
        intro c hc
        simp [isAsciiLetter_not_malayalam (h c hc)]
      simp [detect_language, hs, hmal]
  · intro hne h
    have hs : ¬ pyStrip text = [] := by
      rw [pyStrip_eq_nil_iff]
      intro hall
      match text, hne with
      | a :: t, _ =>
        have h1 := h a (List.mem_cons_self a t)
        have h2 := hall a (List.mem_cons_self a t)
        rw [isMalayalamChar_not_space h1] at h2
        exact Bool.false_ne_true h2
    have hmal : text.any isMalayalamChar = true := by
      match text, hne with
      | a :: t, _ =>
        exact List.any_eq_true.mpr ⟨a, List.mem_cons_self a t, h a (List.mem_cons_self a t)⟩
    have hasc : text.any isAsciiLetter = false := by
      simp only [List.any_eq_false]
      intro c hc
      rcases hl : isAsciiLetter c with _ | _
      · simp
      · have h2 := isAsciiLetter_not_malayalam hl
        rw [h c hc] at h2
        exact absurd h2 (by simp)
    simp [detect_language, hs, hmal, hasc]
  · rintro ⟨cm, hcm, hm⟩ ⟨ca, hca, ha⟩
    have hs : ¬ pyStrip text = [] := by
      rw [pyStrip_eq_nil_iff]
      intro hall
      have h2 := hall ca hca
      rw [isAsciiLetter_not_space ha] at h2
      exact Bool.false_ne_true h2
    have hmal : text.any isMalayalamChar = true := List.any_eq_true.mpr ⟨cm, hcm, hm⟩
    have hasc : text.any isAsciiLetter = true := List.any_eq_true.mpr ⟨ca, hca, ha⟩
    simp [detect_language, hs, hmal, hasc]
  · intro h
    by_cases hs : pyStrip text = []
    · simp [detect_language, hs]
    · have hmal : text.any isMalayalamChar = false := by
        simp only [List.any_eq_false]
        intro c hc
        simp [(h c hc).1]
      have hasc : text.any isAsciiLetter = false := by
        simp only [List.any_eq_false]
        intro c hc
        simp [(h c hc).2]
      simp [detect_language, hs, hmal, hasc]

/-- Witness for C6 at concrete inputs of each of the four classes. -/
theorem claim_C6_witness :
    detect_language "hello".toList = "en".toList
  ∧ detect_language "ഓർഡർ".toList = "ml".toList
  ∧ detect_language "hi ഓർഡർ".toList = "mixed".toList
  ∧ detect_language "12 .!".toList = "en".toList :=
  ⟨(claim_C6 _).1 (by decide),
   (claim_C6 _).2.1 (by decide) (by decide),
   (claim_C6 _).2.2.1 (by decide) (by decide),
   (claim_C6 _).2.2.2 (by decide)⟩

lemma lowerL_all_space {l : List Char} :
    (∀ c ∈ lowerL l, pyIsSpace c = true) ↔ (∀ c ∈ l, pyIsSpace c = true) := by
  constructor
  · intro h c hc
    rw [← pyIsSpace_toLower]
    exact h _ (List.mem_map_of_mem Char.toLower hc)
  · intro h c hc
    rcases List.mem_map.mp hc with ⟨d, hd, rfl⟩
    rw [pyIsSpace_toLower]
    exact h d hd

/-- C9: intent classification of the empty string is general for every
language; classification is invariant under ASCII case changes of the
input text; and any language value that is not en or ml (after case
folding) is treated exactly as en. -/
theorem claim_C9 :
    (∀ language, detect_intent [] language = "general".toList)
  ∧ (∀ text text2 language, lowerL text = lowerL text2 →
      detect_intent text language = detect_intent text2 language)
  ∧ (∀ text language, lowerL language ≠ "en".toList → lowerL language ≠ "ml".toList →
      detect_intent text language = detect_intent text "en".toList) := by
  refine ⟨fun _ => rfl, ?_, ?_⟩
  · intro t t2 lang hl
    have hstrip : (pyStrip t = []) ↔ (pyStrip t2 = []) := by
      rw [pyStrip_eq_nil_iff, pyStrip_eq_nil_iff, ← lowerL_all_space,
        ← lowerL_all_space (l := t2), hl]
    have hm : ∀ intent, intentMatches intent lang t = intentMatches intent lang t2 := by
      intro intent
      simp only [intentMatches, hl]
    by_cases hs : pyStrip t = []
    · have hs2 : pyStrip t2 = [] := hstrip.mp hs
      simp [detect_intent, hs, hs2]
    · have hs2 : ¬ pyStrip t2 = [] := fun h => hs (hstrip.mpr h)
      simp only [detect_intent, if_neg hs, if_neg hs2, hm]
  · intro t lang h1 h2
    have hn : normalizeIntentLanguage lang = "en".toList := by
      unfold normalizeIntentLanguage
      exact if_pos ⟨h1, h2⟩
    have hen : normalizeIntentLanguage "en".toList = "en".toList := by decide
    simp only [detect_intent, intentMatches, hn, hen]

/-- Witness for C9: a case-variant pair and an unknown language code. -/
theorem claim_C9_witness :
    detect_intent [] "zz".toList = "general".toList
  ∧ (lowerL "Cancel ORDER".toList = lowerL "cancel order".toList
      ∧ detect_intent "Cancel ORDER".toList "en".toList
          = detect_intent "cancel order".toList "en".toList)
  ∧ (lowerL "xx".toList ≠ "en".toList ∧ lowerL "xx".toList ≠ "ml".toList
      ∧ detect_intent "order".toList "xx".toList
          = detect_intent "order".toList "en".toList) :=
  ⟨claim_C9.1 _,
   ⟨by decide, claim_C9.2.1 _ _ _ (by decide)⟩,
   ⟨by decide, by decide, claim_C9.2.2 _ _ (by decide) (by decide)⟩⟩

lemma leadsWith_exists {n h : List Char} (hl : leadsWith n h = true) : ∃ q, h = n ++ q := by
  induction n generalizing h with
  | nil => exact ⟨h, rfl⟩
  | cons a n ih =>
    match h with
    | [] => exact absurd hl (by simp [leadsWith])
    | b :: h2 =>
      simp only [leadsWith, Bool.and_eq_true, beq_iff_eq] at hl
      rcases ih hl.2 with ⟨q, rfl⟩
      exact ⟨q, by rw [hl.1]; rfl⟩

lemma containsSub_exists {n h : List Char} (hc : containsSub n h = true) :
    ∃ p q, h = p ++ n ++ q := by
  induction h with
  | nil =>
    rcases leadsWith_exists (by simpa [containsSub] using hc) with ⟨q, hq⟩
    exact ⟨[], q, hq⟩
  | cons b h2 ih =>
    simp only [containsSub, Bool.or_eq_true] at hc
    rcases hc with hc | hc
    · rcases leadsWith_exists hc with ⟨q, hq⟩
      exact ⟨[], q, hq⟩
    · rcases ih hc with ⟨p, q, hq⟩
      exact ⟨b :: p, q, by rw [hq]; rfl⟩

lemma normalizeIntentLanguage_mem (language : List Char) :
    normalizeIntentLanguage language = "en".toList
      ∨ normalizeIntentLanguage language = "ml".toList := by
  rcases Classical.em (lowerL language ≠ "en".toList ∧ lowerL language ≠ "ml".toList) with h | h
  · exact Or.inl (if_pos h)
  · have hkeep : normalizeIntentLanguage language = lowerL language := if_neg h
    rcases not_and_or.mp h with h1 | h1
    · exact Or.inl (hkeep.trans (not_not.mp h1))
    · exact Or.inr (hkeep.trans (not_not.mp h1))

lemma keyword_nonspace :
    ∀ intent ∈ ["escalation".toList, "policy".toList, "return_refund".toList,
        "order_status".toList],
      ∀ lang ∈ ["en".toList, "ml".toList],
        ∀ kw ∈ INTENT_KEYWORDS intent lang, ∃ c ∈ lowerL kw, pyIsSpace c = false := by
  decide

lemma intentMatches_strip_ne {intent language text : List Char}
    (hin : intent ∈ ["escalation".toList, "policy".toList, "return_refund".toList,
      "order_status".toList])
    (h : intentMatches intent language text = true) : pyStrip text ≠ [] := by
  intro hs
  rcases List.any_eq_true.mp h with ⟨kw, hkw, hsub⟩
  have hlangmem : normalizeIntentLanguage language ∈ ["en".toList, "ml".toList] := by
    rcases normalizeIntentLanguage_mem language with h1 | h1 <;> simp [h1]
  rcases keyword_nonspace intent hin _ hlangmem kw hkw with ⟨c, hc, hcs⟩
  rcases containsSub_exists hsub with ⟨p, q, hpq⟩
  have hall : ∀ d ∈ lowerL text, pyIsSpace d = true :=
    lowerL_all_space.mpr (pyStrip_eq_nil_iff.mp hs)
  have : pyIsSpace c = true := by
    refine hall c ?_
    rw [hpq]
    simp only [List.mem_append]
    exact Or.inl (Or.inr hc)
  rw [hcs] at this
  exact Bool.false_ne_true this

/-- C5: intent classification checks the categories in the fixed
priority order escalation, policy, return_refund, order_status and
returns the first whose keyword list matches; general when none does.
In particular a text matching an escalation keyword classifies as
escalation no matter which lower-priority keywords it also contains. -/
theorem claim_C5 (text language : List Char) :
    (intentMatches "escalation".toList language text = true →
      detect_intent text language = "escalation".toList)
  ∧ (intentMatches "escalation".toList language text = false →
     intentMatches "policy".toList language text = true →
      detect_intent text language = "policy".toList)
  ∧ (intentMatches "escalation".toList language text = false →
     intentMatches "policy".toList language text = false →
     intentMatches "return_refund".toList language text = true →
      detect_intent text language = "return_refund".toList)
  ∧ (intentMatches "escalation".toList language text = false →
     intentMatches "policy".toList language text = false →
     intentMatches "return_refund".toList language text = false →
     intentMatches "order_status".toList language text = true →
      detect_intent text language = "order_status".toList)
  ∧ (intentMatches "escalation".toList language text = false →
     intentMatches "policy".toList language text = false →
     intentMatches "return_refund".toList language text = false →
     intentMatches "order_status".toList language text = false →
      detect_intent text language = "general".toList) := by
  refine ⟨?_, ?_, ?_, ?_, ?_⟩
  · intro h1
    have hs := intentMatches_strip_ne (by simp) h1
    rw [detect_intent, if_neg hs, if_pos h1]
  · intro h1 h2
    have hs := intentMatches_strip_ne (by simp) h2
    rw [detect_intent, if_neg hs, if_neg (by rw [h1]; exact Bool.false_ne_true), if_pos h2]
  · intro h1 h2 h3
    have hs := intentMatches_strip_ne (by simp) h3
    rw [detect_intent, if_neg hs, if_neg (by rw [h1]; exact Bool.false_ne_true),
      if_neg (by rw [h2]; exact Bool.false_ne_true), if_pos h3]
  · intro h1 h2 h3 h4
    have hs := intentMatches_strip_ne (by simp) h4
    rw [detect_intent, if_neg hs, if_neg (by rw [h1]; exact Bool.false_ne_true),
      if_neg (by rw [h2]; exact Bool.false_ne_true),
      if_neg (by rw [h3]; exact Bool.false_ne_true), if_pos h4]
  · intro h1 h2 h3 h4
    by_cases hs : pyStrip text = []
    · rw [detect_intent, if_pos hs]
    · rw [detect_intent, if_neg hs, if_neg (by rw [h1]; exact Bool.false_ne_true),
        if_neg (by rw [h2]; exact Bool.false_ne_true),
        if_neg (by rw [h3]; exact Bool.false_ne_true),
        if_neg (by rw [h4]; exact Bool.false_ne_true)]

/-- Witness for C5: an escalation keyword beats a lower-priority match;
an order-status-only text classifies as order_status; a keyword-free
text is general. -/
theorem claim_C5_witness :
    (intentMatches "escalation".toList "en".toList "cancel my order and escalate".toList = true
      ∧ detect_intent "cancel my order and escalate".toList "en".toList = "escalation".toList)
  ∧ (intentMatches "order_status".toList "en".toList "where is my stuff".toList = true
      ∧ detect_intent "where is my stuff".toList "en".toList = "order_status".toList)
  ∧ detect_intent "hmm ok".toList "en".toList = "general".toList :=
  ⟨⟨by decide, (claim_C5 _ _).1 (by decide)⟩,
   ⟨by decide, (claim_C5 _ _).2.2.2.1 (by decide) (by decide) (by decide) (by decide)⟩,
   (claim_C5 _ _).2.2.2.2 (by decide) (by decide) (by decide) (by decide)⟩

lemma reverse_take_reverse {α : Type} (l : List α) (n : Nat) :
    (l.reverse.take n).reverse = l.drop (l.length - n) := by
  rw [List.reverse_take]
  simp

lemma contextWindow_qualifies {conv : ConversationHistory} {m : CtxMessage}
    (hm : m ∈ contextWindow conv) : contextQualifies m = true := by
  unfold contextWindow at hm
  rw [List.mem_reverse] at hm
  have hm2 := List.mem_reverse.mp (List.mem_of_mem_take hm)
  exact List.of_mem_filter hm2

lemma filterMap_congr_map {α β : Type} (f : α → Option β) (g : α → β) :
    ∀ (l : List α), (∀ m ∈ l, f m = some (g m)) → l.filterMap f = l.map g
  | [], _ => rfl
  | a :: t, h => by
    rw [List.filterMap_cons, h a (List.mem_cons_self a t),
      filterMap_congr_map f g t (fun m hm => h m (List.mem_cons_of_mem a hm)),
      List.map_cons]

lemma filterMap_contextLine (l : List CtxMessage)
    (h : ∀ m ∈ l, m.sender = "user".toList ∨ m.sender = "ai".toList) :
    (l.filterMap (fun m =>
        if m.sender == "user".toList then some ("User: ".toList ++ m.message)
        else if m.sender == "ai".toList then some ("Assistant: ".toList ++ m.message)
        else none))
      = l.map contextLine := by
  refine filterMap_congr_map _ _ l (fun m hm => ?_)
  rcases h m hm with ha | ha <;> simp [contextLine, ha]

/-- C7: the conversation-context builder includes only general-intent
user/ai messages, keeps at most the 10 most recent in chronological
order (a windowed suffix of the filtered history, in the original
order), renders one `User:` / `Assistant:` line per message joined by
newlines plus a blank-line separator, and yields the empty string when
the conversation is absent or nothing qualifies. -/
theorem claim_C7 :
    build_conversation_context none = []
  ∧ (∀ conv : ConversationHistory,
      (contextWindow conv).length ≤ 10
    ∧ (contextWindow conv).Sublist conv.msgs
    ∧ contextWindow conv =
        (conv.msgs.filter contextQualifies).drop
          ((conv.msgs.filter contextQualifies).length - 10)
    ∧ (∀ m ∈ contextWindow conv,
        m.queryType = "general".toList
          ∧ (m.sender = "user".toList ∨ m.sender = "ai".toList))
    ∧ build_conversation_context (some conv) =
        (if contextWindow conv = [] then []
         else List.intercalate "\n".toList ((contextWindow conv).map contextLine)
            ++ "\n\n".toList)) := by
  refine ⟨rfl, fun conv => ?_⟩
  have hdrop : contextWindow conv =
      (conv.msgs.filter contextQualifies).drop
        ((conv.msgs.filter contextQualifies).length - 10) := by
    unfold contextWindow
    exact reverse_take_reverse _ 10
  have hmem : ∀ m ∈ contextWindow conv,
      m.queryType = "general".toList
        ∧ (m.sender = "user".toList ∨ m.sender = "ai".toList) := by
    intro m hm
    have hq := contextWindow_qualifies hm
    simp only [contextQualifies, Bool.and_eq_true, Bool.or_eq_true, beq_iff_eq] at hq
    exact hq
  refine ⟨?_, ?_, hdrop, hmem, ?_⟩
  · unfold contextWindow
    rw [List.length_reverse, List.length_take]
    exact Nat.min_le_left _ _
  · rw [hdrop]
    exact (List.drop_sublist _ _).trans (List.filter_sublist _)
  · have hform := filterMap_contextLine (contextWindow conv) (fun m hm => (hmem m hm).2)
    show (let messages := ((conv.msgs.filter contextQualifies).reverse.take 10).reverse
          if messages = [] then []
          else
            let contextLines := messages.filterMap (fun m =>
              if m.sender == "user".toList then some ("User: ".toList ++ m.message)
              else if m.sender == "ai".toList then some ("Assistant: ".toList ++ m.message)
              else none)
            List.intercalate "\n".toList contextLines ++ "\n\n".toList) = _
    rw [show ((conv.msgs.filter contextQualifies).reverse.take 10).reverse
          = contextWindow conv from rfl]
    by_cases hw : contextWindow conv = []
    · rw [if_pos hw, if_pos hw]
    · rw [if_neg hw, if_neg hw, hform]

/-- Witness for C7 at a concrete three-message history with one
non-qualifying message. -/
theorem claim_C7_witness :
    build_conversation_context (some ⟨[⟨"user".toList, "hi".toList, "general".toList⟩,
        ⟨"ai".toList, "yo".toList, "general".toList⟩,
        ⟨"user".toList, "x".toList, "policy".toList⟩]⟩)
      = (if contextWindow ⟨[⟨"user".toList, "hi".toList, "general".toList⟩,
            ⟨"ai".toList, "yo".toList, "general".toList⟩,
            ⟨"user".toList, "x".toList, "policy".toList⟩]⟩ = [] then []
         else List.intercalate "\n".toList
            ((contextWindow ⟨[⟨"user".toList, "hi".toList, "general".toList⟩,
              ⟨"ai".toList, "yo".toList, "general".toList⟩,
              ⟨"user".toList, "x".toList, "policy".toList⟩]⟩).map contextLine)
            ++ "\n\n".toList)
  ∧ (contextWindow ⟨[⟨"user".toList, "hi".toList, "general".toList⟩,
        ⟨"ai".toList, "yo".toList, "general".toList⟩,
        ⟨"user".toList, "x".toList, "policy".toList⟩]⟩).length ≤ 10
  ∧ ((⟨"ai".toList, "yo".toList, "general".toList⟩ : CtxMessage)
        ∈ contextWindow ⟨[⟨"user".toList, "hi".toList, "general".toList⟩,
            ⟨"ai".toList, "yo".toList, "general".toList⟩,
            ⟨"user".toList, "x".toList, "policy".toList⟩]⟩
      ∧ (⟨"ai".toList, "yo".toList, "general".toList⟩ : CtxMessage).queryType
          = "general".toList) :=
  ⟨(claim_C7.2 ⟨[⟨"user".toList, "hi".toList, "general".toList⟩,
      ⟨"ai".toList, "yo".toList, "general".toList⟩,
      ⟨"user".toList, "x".toList, "policy".toList⟩]⟩).2.2.2.2,
   (claim_C7.2 ⟨[⟨"user".toList, "hi".toList, "general".toList⟩,
      ⟨"ai".toList, "yo".toList, "general".toList⟩,
      ⟨"user".toList, "x".toList, "policy".toList⟩]⟩).1,
   by decide,
   ((claim_C7.2 ⟨[⟨"user".toList, "hi".toList, "general".toList⟩,
      ⟨"ai".toList, "yo".toList, "general".toList⟩,
      ⟨"user".toList, "x".toList, "policy".toList⟩]⟩).2.2.2.1
        ⟨"ai".toList, "yo".toList, "general".toList⟩ (by decide)).1⟩

/-- C2: whenever the configured provider fails (both real providers) or
is missing/unrecognised, `generate_reply` returns exactly the
deterministic general-intent template for the response language with
confidence 0.5 and the fallback flag set; the result is total, never a
propagated error. -/
theorem claim_C2 (cfg : LLMConfig) (env : LLMEnv) (userMessage language : List Char)
    (conversation : Option ConversationHistory) :
    (cfg.provider ≠ "openai".toList → cfg.provider ≠ "anthropic".toList →
     cfg.provider ≠ "mock".toList →
      generate_reply cfg env userMessage language conversation
        = (generate_response "general".toList language {}, 0.5, true))
  ∧ (cfg.provider = "openai".toList → env.openaiResp = none →
      generate_reply cfg env userMessage language conversation
        = (generate_response "general".toList language {}, 0.5, true))
  ∧ (cfg.provider = "anthropic".toList → env.anthropicResp = none →
      generate_reply cfg env userMessage language conversation
        = (generate_response "general".toList language {}, 0.5, true)) := by
  refine ⟨?_, ?_, ?_⟩
  · intro h1 h2 h3
    simp only [generate_reply, if_neg h1, if_neg h2, if_neg h3]
  · intro h1 h2
    simp only [generate_reply, if_pos h1, call_openai_api, h2]
  · intro h1 h2
    have ho : cfg.provider ≠ "openai".toList := by rw [h1]; decide
    simp only [generate_reply, if_neg ho, if_pos h1, call_anthropic_api, h2]

/-- Witness for C2: an unrecognised provider and a failed openai call. -/
theorem claim_C2_witness :
    (("nope".toList : List Char) ≠ "openai".toList
      ∧ ("nope".toList : List Char) ≠ "anthropic".toList
      ∧ ("nope".toList : List Char) ≠ "mock".toList
      ∧ generate_reply ⟨"nope".toList, 500⟩ ⟨none, none, 0⟩ "hi".toList "en".toList none
          = (generate_response "general".toList "en".toList {}, 0.5, true))
  ∧ generate_reply ⟨"openai".toList, 500⟩ ⟨none, none, 0⟩ "hi".toList "ml".toList none
      = (generate_response "general".toList "ml".toList {}, 0.5, true) :=
  ⟨⟨by decide, by decide, by decide,
    (claim_C2 ⟨"nope".toList, 500⟩ ⟨none, none, 0⟩ "hi".toList "en".toList none).1
      (by decide) (by decide) (by decide)⟩,
   (claim_C2 ⟨"openai".toList, 500⟩ ⟨none, none, 0⟩ "hi".toList "ml".toList none).2.1
      rfl rfl⟩

/-- C4 counterexample: the mock provider is a successful (non-fallback)
provider path whose confidence is 0.8, which is neither 0.7 nor 1.0 —
refuting the claim that every successful provider reply has confidence
in the set containing exactly 0.7 and 1.0. -/
theorem claim_C4_counterexample :
    (generate_reply ⟨"mock".toList, 500⟩ ⟨none, none, 0⟩ "hi".toList "en".toList none).2.2
        = false
  ∧ (generate_reply ⟨"mock".toList, 500⟩ ⟨none, none, 0⟩ "hi".toList "en".toList none).2.1
        = 0.8
  ∧ ¬((generate_reply ⟨"mock".toList, 500⟩ ⟨none, none, 0⟩ "hi".toList "en".toList
          none).2.1 = 0.7
      ∨ (generate_reply ⟨"mock".toList, 500⟩ ⟨none, none, 0⟩ "hi".toList "en".toList
          none).2.1 = 1) := by
  refine ⟨rfl, rfl, ?_⟩
  have h : (generate_reply ⟨"mock".toList, 500⟩ ⟨none, none, 0⟩ "hi".toList "en".toList
      none).2.1 = 0.8 := rfl
  rw [h]
  rintro (hc | hc) <;> norm_num at hc

/-- C4 as amended: every fallback reply has confidence exactly 0.5;
every successful reply of the two real providers has confidence 0.7 or
1.0; the mock provider always succeeds with confidence exactly 0.8; and
every deterministic-template reply of the view has confidence exactly
1.0. -/
theorem claim_C4_amended :
    (∀ (cfg : LLMConfig) (env : LLMEnv) (msg lang : List Char)
        (conv : Option ConversationHistory),
      (generate_reply cfg env msg lang conv).2.2 = true →
        (generate_reply cfg env msg lang conv).2.1 = 0.5)
  ∧ (∀ (cfg : LLMConfig) (env : LLMEnv) (msg lang : List Char)
        (conv : Option ConversationHistory),
      (cfg.provider = "openai".toList ∨ cfg.provider = "anthropic".toList) →
      (generate_reply cfg env msg lang conv).2.2 = false →
        ((generate_reply cfg env msg lang conv).2.1 = 0.7
          ∨ (generate_reply cfg env msg lang conv).2.1 = 1))
  ∧ (∀ (cfg : LLMConfig) (env : LLMEnv) (msg lang : List Char)
        (conv : Option ConversationHistory),
      cfg.provider = "mock".toList →
        (generate_reply cfg env msg lang conv).2.2 = false
          ∧ (generate_reply cfg env msg lang conv).2.1 = 0.8)
  ∧ (∀ (conversation : Conversation) (req : PostRequest) (env : PostEnv)
        (m : MessageRec),
      (support_message_post conversation req env).aiReply = some m →
      m.queryType ≠ "general".toList → m.aiConfidence = some 1) := by
  refine ⟨?_, ?_, ?_, ?_⟩
  · intro cfg env msg lang conv h
    by_cases ho : cfg.provider = "openai".toList
    · rcases hr : env.openaiResp with _ | ⟨content, clean⟩
      · simp only [generate_reply, if_pos ho, call_openai_api, hr]
      · simp only [generate_reply, if_pos ho, call_openai_api, hr] at h
        exact absurd h (by simp)
    · by_cases ha : cfg.provider = "anthropic".toList
      · rcases hr : env.anthropicResp with _ | ⟨content, clean⟩
        · simp only [generate_reply, if_neg ho, if_pos ha, call_anthropic_api, hr]
        · simp only [generate_reply, if_neg ho, if_pos ha, call_anthropic_api, hr] at h
          exact absurd h (by simp)
      · by_cases hm : cfg.provider = "mock".toList
        · simp only [generate_reply, if_neg ho, if_neg ha, if_pos hm] at h
          exact absurd h (by simp)
        · simp only [generate_reply, if_neg ho, if_neg ha, if_neg hm]
  · intro cfg env msg lang conv hp h
    rcases hp with ho | ha
    · rcases hr : env.openaiResp with _ | ⟨content, clean⟩
      · simp only [generate_reply, if_pos ho, call_openai_api, hr] at h
        exact absurd h (by simp)
      · rcases clean with _ | _
        · left
          simp only [generate_reply, if_pos ho, call_openai_api, hr]
          rfl
        · right
          simp only [generate_reply, if_pos ho, call_openai_api, hr]
          rfl
    · have ho : cfg.provider ≠ "openai".toList := by rw [ha]; decide
      rcases hr : env.anthropicResp with _ | ⟨content, clean⟩
      · simp only [generate_reply, if_neg ho, if_pos ha, call_anthropic_api, hr] at h
        exact absurd h (by simp)
      · rcases clean with _ | _
        · left
          simp only [generate_reply, if_neg ho, if_pos ha, call_anthropic_api, hr]
          rfl
        · right
          simp only [generate_reply, if_neg ho, if_pos ha, call_anthropic_api, hr]
          rfl
  · intro cfg env msg lang conv hm
    have ho : cfg.provider ≠ "openai".toList := by rw [hm]; decide
    have ha : cfg.provider ≠ "anthropic".toList := by rw [hm]; decide
    simp only [generate_reply, if_neg ho, if_neg ha, if_pos hm]
    exact ⟨trivial, rfl⟩
  · intro conversation req env m h hq
    by_cases hmsg : req.message = []
    · simp only [support_message_post, if_pos hmsg, PostResult.aiReply] at h
      exact absurd h (by simp)
    · simp only [support_message_post, if_neg hmsg] at h
      by_cases hsender : req.sender = "user".toList
      · rw [if_pos hsender] at h
        simp only [PostResult.aiReply, Option.some.injEq] at h
        subst h
        simp only [MessageRec] at hq ⊢
        have hconf : ∀ rl di : List Char, di ≠ "general".toList →
            (ai_reply_for env req.message rl di).2 = 1 := by
          intro rl di hdi
          simp only [ai_reply_for, if_neg hdi]
        simp only [Option.some.injEq]
        exact hconf _ _ hq
      · rw [if_neg hsender] at h
        simp only [PostResult.aiReply] at h
        exact absurd h (by simp)

/-- Witness for C4 as amended at concrete provider configurations. -/
theorem claim_C4_amended_witness :
    (generate_reply ⟨"zz".toList, 500⟩ ⟨none, none, 0⟩ "hi".toList "en".toList none).2.1
        = 0.5
  ∧ ((generate_reply ⟨"openai".toList, 500⟩ ⟨some ("ok".toList, true), none, 0⟩
        "hi".toList "en".toList none).2.1 = 0.7
      ∨ (generate_reply ⟨"openai".toList, 500⟩ ⟨some ("ok".toList, true), none, 0⟩
        "hi".toList "en".toList none).2.1 = 1)
  ∧ (generate_reply ⟨"mock".toList, 500⟩ ⟨none, none, 0⟩ "hi".toList "en".toList none).2.1
        = 0.8
  ∧ (⟨"ai".toList, generate_response "order_status".toList "en".toList {}, "en".toList,
        "order_status".toList, some 1⟩ : MessageRec).aiConfidence = some 1 :=
  ⟨claim_C4_amended.1 ⟨"zz".toList, 500⟩ ⟨none, none, 0⟩ "hi".toList "en".toList none rfl,
   claim_C4_amended.2.1 ⟨"openai".toList, 500⟩ ⟨some ("ok".toList, true), none, 0⟩
     "hi".toList "en".toList none (Or.inl rfl) rfl,
   (claim_C4_amended.2.2.1 ⟨"mock".toList, 500⟩ ⟨none, none, 0⟩ "hi".toList "en".toList
     none rfl).2,
   claim_C4_amended.2.2.2 ⟨"en".toList, 0, false, none⟩
     ⟨"where is my order".toList, "user".toList, none⟩
     ⟨⟨"mock".toList, 500⟩, ⟨none, none, 0⟩, none, []⟩
     ⟨"ai".toList, generate_response "order_status".toList "en".toList {}, "en".toList,
        "order_status".toList, some 1⟩
     rfl (by decide)⟩

lemma updated_conversation_messageCount (conversation : Conversation)
    (messageText detectedLanguage detectedIntent : List Char) :
    (updated_conversation conversation messageText detectedLanguage
        detectedIntent).messageCount = conversation.messageCount + 1 := by
  simp only [updated_conversation]
  split_ifs <;> rfl

/-- C10: the message endpoint rejects a request exactly when the message
text is the empty string; a whitespace-only message is accepted, stored
with detected language en and intent general, the message counter grows
by two (the stored user message and the stored automated reply), and an
automated reply is produced. -/
theorem claim_C10 :
    (∀ (conversation : Conversation) (req : PostRequest) (env : PostEnv),
      (support_message_post conversation req env).isRejected = true ↔ req.message = [])
  ∧ (∀ (conversation : Conversation) (env : PostEnv) (ws : List Char),
      ws ≠ [] → (∀ c ∈ ws, pyIsSpace c = true) →
        (support_message_post conversation ⟨ws, "user".toList, none⟩ env).isRejected = false
      ∧ ((support_message_post conversation ⟨ws, "user".toList, none⟩ env).storedMessage.map
            MessageRec.languageDetected) = some "en".toList
      ∧ ((support_message_post conversation ⟨ws, "user".toList, none⟩ env).storedMessage.map
            MessageRec.queryType) = some "general".toList
      ∧ ((support_message_post conversation ⟨ws, "user".toList, none⟩
            env).conversationAfter.map Conversation.messageCount)
          = some (conversation.messageCount + 2)
      ∧ ((support_message_post conversation ⟨ws, "user".toList, none⟩ env).aiReply).isSome
          = true) := by
  constructor
  · intro conversation req env
    by_cases hmsg : req.message = []
    · simp only [support_message_post, if_pos hmsg, PostResult.isRejected]
      simp [hmsg]
    · simp only [support_message_post, if_neg hmsg]
      by_cases hsender : req.sender = "user".toList
      · rw [if_pos hsender]
        simp only [PostResult.isRejected]
        simp [hmsg]
      · rw [if_neg hsender]
        simp only [PostResult.isRejected]
        simp [hmsg]
  · intro conversation env ws h1 h2
    have hstrip : pyStrip ws = [] := pyStrip_eq_nil_iff.mpr h2
    have hlang : detect_language ws = "en".toList := by
      rw [detect_language, if_pos hstrip]
    have hint : detect_intent ws (detect_language ws) = "general".toList := by
      rw [detect_intent, if_pos hstrip]
    simp only [support_message_post, if_neg h1, if_true]
    refine ⟨rfl, ?_, ?_, ?_, rfl⟩
    · simp only [PostResult.storedMessage, Option.map_some']
      rw [hlang]
    · simp only [PostResult.storedMessage, Option.map_some']
      rw [hint]
    · simp only [PostResult.conversationAfter, Option.map_some', Option.some.injEq]
      rw [updated_conversation_messageCount]

/-- Witness for C10 at a single-space message. -/
theorem claim_C10_witness :
    ((" ".toList : List Char) ≠ [] ∧ ∀ c ∈ " ".toList, pyIsSpace c = true)
  ∧ (support_message_post ⟨"en".toList, 0, false, none⟩ ⟨" ".toList, "user".toList, none⟩
        ⟨⟨"mock".toList, 500⟩, ⟨none, none, 0⟩, none, []⟩).isRejected = false
  ∧ ((support_message_post ⟨"en".toList, 0, false, none⟩ ⟨" ".toList, "user".toList, none⟩
        ⟨⟨"mock".toList, 500⟩, ⟨none, none, 0⟩, none, []⟩).conversationAfter.map
          Conversation.messageCount) = some 2
  ∧ ((support_message_post ⟨"en".toList, 0, false, none⟩ ⟨" ".toList, "user".toList, none⟩
        ⟨⟨"mock".toList, 500⟩, ⟨none, none, 0⟩, none, []⟩).aiReply).isSome = true :=
  ⟨⟨by decide, by decide⟩,
   ((claim_C10.2 ⟨"en".toList, 0, false, none⟩
      ⟨⟨"mock".toList, 500⟩, ⟨none, none, 0⟩, none, []⟩ " ".toList
      (by decide) (by decide)).1),
   ((claim_C10.2 ⟨"en".toList, 0, false, none⟩
      ⟨⟨"mock".toList, 500⟩, ⟨none, none, 0⟩, none, []⟩ " ".toList
      (by decide) (by decide)).2.2.2.1),
   ((claim_C10.2 ⟨"en".toList, 0, false, none⟩
      ⟨⟨"mock".toList, 500⟩, ⟨none, none, 0⟩, none, []⟩ " ".toList
      (by decide) (by decide)).2.2.2.2)⟩

/-- C1 as the code actually behaves (the claim itself is the intended
behaviour, witnessed by the repository tests): on a conversation whose
escalated flag is already set, a user message still receives an
automated reply — `SupportMessageView.post` never consults the
escalated flag before generating one. -/
theorem claim_C1_code_behavior :
    (⟨"en".toList, 3, true, some "earlier".toList⟩ : Conversation).escalated = true
  ∧ ((support_message_post ⟨"en".toList, 3, true, some "earlier".toList⟩
        ⟨"Hello".toList, "user".toList, none⟩
        ⟨⟨"mock".toList, 500⟩, ⟨none, none, 0⟩, none, []⟩).aiReply).isSome = true :=
  ⟨rfl, by decide⟩

/-- C3 as the code actually behaves: an escalation-intent user message
does set the escalated flag and store the message text as the reason,
but the view still generates and stores a deterministic escalation
template reply with confidence 1.0 for that same turn, instead of
skipping reply generation. -/
theorem claim_C3_code_behavior :
    (support_message_post ⟨"en".toList, 5, false, none⟩
        ⟨"I want to talk to a human agent".toList, "user".toList, none⟩
        ⟨⟨"mock".toList, 500⟩, ⟨none, none, 0⟩, none, []⟩).conversationAfter
      = some ⟨"en".toList, 7, true, some "I want to talk to a human agent".toList⟩
  ∧ (support_message_post ⟨"en".toList, 5, false, none⟩
        ⟨"I want to talk to a human agent".toList, "user".toList, none⟩
        ⟨⟨"mock".toList, 500⟩, ⟨none, none, 0⟩, none, []⟩).aiReply
      = some ⟨"ai".toList, "I am connecting you to a support executive.".toList,
          "en".toList, "escalation".toList, some 1⟩ :=
  ⟨rfl, rfl⟩

lemma spansSeparated_tail {x : Nat × Nat} {rest : List (Nat × Nat)}
    (h : spansSeparated (x :: rest) = true) : spansSeparated rest = true := by
  match rest with
  | [] => rfl
  | y :: rest2 =>
    simp only [spansSeparated, Bool.and_eq_true] at h
    exact h.2

lemma spansSeparated_head_le {a b q1 q2 : Nat} {rest : List (Nat × Nat)}
    (h : spansSeparated ((a, b) :: (q1, q2) :: rest) = true) : b ≤ q1 := by
  simp only [spansSeparated, Bool.and_eq_true, decide_eq_true_eq] at h
  exact h.1

lemma spansSeparated_lower :
    ∀ (rest : List (Nat × Nat)) (a b : Nat),
      spansSeparated ((a, b) :: rest) = true →
      (∀ p ∈ rest, p.1 ≤ p.2) →
      ∀ p ∈ rest, b ≤ p.1 := by
  intro rest
  induction rest with
  | nil =>
    intro a b _ _ p hp
    exact absurd hp (List.not_mem_nil p)
  | cons q rest2 ih =>
    intro a b hsep hval p hp
    obtain ⟨q1, q2⟩ := q
    have hbq : b ≤ q1 := spansSeparated_head_le hsep
    rcases List.mem_cons.mp hp with rfl | hp2
    · exact hbq
    · have hq12 : q1 ≤ q2 := hval (q1, q2) (List.mem_cons_self _ _)
      have := ih q1 q2 (spansSeparated_tail hsep)
        (fun p hp => hval p (List.mem_cons_of_mem _ hp)) p hp2
      omega

lemma foldr_redact (spans : List (Nat × Nat)) (s : List Char) :
    ∀ c : Nat,
      spansSeparated spans = true →
      (∀ p ∈ spans, p.1 ≤ p.2 ∧ p.2 ≤ s.length) →
      (∀ p ∈ spans, c ≤ p.1) →
      spans.foldr (fun r acc => acc.take r.1 ++ REDACTED ++ acc.drop r.2) s
        = s.take c ++ redactSpans c spans s := by
  induction spans with
  | nil =>
    intro c _ _ _
    simp [redactSpans]
  | cons head rest ih =>
    obtain ⟨a, b⟩ := head
    intro c hsep hval hc
    have hab : a ≤ b := (hval (a, b) (List.mem_cons_self _ _)).1
    have hblen : b ≤ s.length := (hval (a, b) (List.mem_cons_self _ _)).2
    have hca : c ≤ a := hc (a, b) (List.mem_cons_self _ _)
    have hrest_lb : ∀ p ∈ rest, b ≤ p.1 :=
      spansSeparated_lower rest a b hsep
        (fun p hp => (hval p (List.mem_cons_of_mem _ hp)).1)
    have hF := ih b (spansSeparated_tail hsep)
      (fun p hp => hval p (List.mem_cons_of_mem _ hp)) hrest_lb
    simp only [List.foldr_cons, redactSpans]
    rw [hF]
    have htake : (List.take b s ++ redactSpans b rest s).take a = s.take a := by
      rw [List.take_append_of_le_length
        (by rw [List.length_take]; exact le_min hab (hab.trans hblen)),
        List.take_take, min_eq_left hab]
    have hdrop : (List.take b s ++ redactSpans b rest s).drop b = redactSpans b rest s := by
      have hlen : (List.take b s).length = b := by
        rw [List.length_take]
        exact min_eq_left hblen
      have hdl := List.drop_left (List.take b s) (redactSpans b rest s)
      rwa [hlen] at hdl
    rw [htake, hdrop]
    have hjoin : s.take c ++ (s.drop c).take (a - c) = s.take a := by
      rw [← List.take_add, Nat.add_sub_cancel' hca]
    rw [← List.append_assoc, ← List.append_assoc, hjoin]

lemma truncate_prompt_length (maxTokens : Nat) (prompt : List Char) :
    (truncate_prompt maxTokens prompt).length ≤ 4 * maxTokens := by
  simp only [truncate_prompt]
  split_ifs with h
  · omega
  · rw [List.length_take]
    omega

/-- C8: on the LLM path the composed user prompt is exactly the
sanitized context followed by the sanitized-then-truncated message
wrapped in the Customer/Assistant frame, truncated once more as a
whole, so its length never exceeds 4 characters per configured token;
and the sanitizer, whenever the collected pattern spans are pairwise
disjoint, replaces exactly each matched span with the redaction
marker (the sorted span list being a permutation of all collected
matches). -/
theorem claim_C8 (cfg : LLMConfig) (userMessage language : List Char)
    (conv : ConversationHistory) (s : List Char)
    (hsep : spansSeparated (ascSpans s) = true)
    (hval : ∀ p ∈ ascSpans s, p.1 ≤ p.2 ∧ p.2 ≤ s.length) :
    (prompts_for cfg userMessage language (some conv)).2
      = truncate_prompt cfg.maxTokens
          (sanitize_prompt (build_conversation_context (some conv))
            ++ ("Customer: ".toList
              ++ (truncate_prompt cfg.maxTokens (sanitize_prompt userMessage)
                ++ "\n\nAssistant:".toList)))
  ∧ (prompts_for cfg userMessage language (some conv)).2.length ≤ 4 * cfg.maxTokens
  ∧ sanitize_prompt s = redactSpans 0 (ascSpans s) s
  ∧ (ascSpans s).Perm (collectReplacements s) := by
  have h1 : (prompts_for cfg userMessage language (some conv)).2
      = truncate_prompt cfg.maxTokens
          (sanitize_prompt (build_conversation_context (some conv))
            ++ ("Customer: ".toList
              ++ (truncate_prompt cfg.maxTokens (sanitize_prompt userMessage)
                ++ "\n\nAssistant:".toList))) := by
    simp only [prompts_for, prepare_prompts, List.append_assoc]
  refine ⟨h1, ?_, ?_, ?_⟩
  · rw [h1]
    exact truncate_prompt_length _ _
  · have hsort : List.insertionSort spanGE (collectReplacements s) = (ascSpans s).reverse :=
      (List.reverse_reverse _).symm
    rw [sanitize_prompt, hsort, List.foldl_reverse]
    have := foldr_redact (ascSpans s) s 0 hsep hval (fun p _ => Nat.zero_le _)
    simpa using this
  · exact (List.reverse_perm _).trans (List.perm_insertionSort _ _)

/-- Witness for C8 at a message containing an email and a phone
number. -/
theorem claim_C8_witness :
    (spansSeparated (ascSpans "a@b.co and 1234567890".toList) = true
      ∧ ∀ p ∈ ascSpans "a@b.co and 1234567890".toList,
          p.1 ≤ p.2 ∧ p.2 ≤ ("a@b.co and 1234567890".toList).length)
  ∧ sanitize_prompt "a@b.co and 1234567890".toList
      = redactSpans 0 (ascSpans "a@b.co and 1234567890".toList)
          "a@b.co and 1234567890".toList
  ∧ (prompts_for ⟨"openai".toList, 3⟩ "hello".toList "en".toList
        (some ⟨[]⟩)).2.length ≤ 4 * 3 :=
  ⟨⟨by decide, by decide⟩,
   (claim_C8 ⟨"openai".toList, 3⟩ "hello".toList "en".toList ⟨[]⟩
      "a@b.co and 1234567890".toList (by decide) (by decide)).2.2.1,
   (claim_C8 ⟨"openai".toList, 3⟩ "hello".toList "en".toList ⟨[]⟩
      "a@b.co and 1234567890".toList (by decide) (by decide)).2.1⟩

end Support

/-!  Cross-checks: closed evaluations of the embedded functions against
reference outputs computed by running the corresponding CPython code
(`re.finditer` plus the replacement loop for the sanitizer, the intent
and language detectors, the template renderer and the view handler) on
the same inputs. -/

section CrossChecks
open Support
example : detect_language "abc".toList = "en".toList := by decide
example : detect_language "ഓർഡർ".toList = "ml".toList := by decide
example : detect_language "hi ഓർഡർ".toList = "mixed".toList := by decide
example : detect_language " 12!".toList = "en".toList := by decide
example : detect_intent "cancel my order and escalate".toList "en".toList = "escalation".toList := by decide
example : detect_intent "".toList "xx".toList = "general".toList := by decide
example : detect_intent "CANCEL".toList "EN".toList = "return_refund".toList := by decide
example : detect_intent "പരാതി ഉണ്ട്".toList "ml".toList = "escalation".toList := by decide
example : sanitize_prompt "a@b.co".toList = "[REDACTED]".toList := by decide
example : sanitize_prompt "call 1234567890 now".toList = "call [REDACTED] now".toList := by decide
example : sanitize_prompt "cc 1234 5678 9012 3456 ok".toList = "cc [REDACTED] ok".toList := by decide
example : sanitize_prompt "id 123456789012".toList = "id [REDACTED]".toList := by decide
example : sanitize_prompt "hello there".toList = "hello there".toList := by decide
example : sanitize_prompt "x@y-.z| end".toList = "x@y-.z| end".toList := by decide
example : sanitize_prompt "_a@b.co_".toList = "_a@b.co_".toList := by decide
example : sanitize_prompt "user.1234567890123@x.com".toList = "[REDACTED]".toList := by decide
example : collectReplacements "user.1234567890123@x.com".toList = [(0, 24), (5, 18)] := by decide
example : sanitize_prompt "1234 5678 9012 34567".toList = "1234 5678 9012 34567".toList := by decide
example : sanitize_prompt "1234567890123456".toList = "[REDACTED]".toList := by decide
example : collectReplacements "1234567890123456".toList = [(0, 16), (0, 16)] := by decide
example : sanitize_prompt "ab@cd.e|f".toList = "[REDACTED]".toList := by decide
example : sanitize_prompt ".x@y.zz".toList = ".[REDACTED]".toList := by decide
example : sanitize_prompt "a1@b2.cc3".toList = "a1@b2.cc3".toList := by decide
example : sanitize_prompt "12345678901".toList = "12345678901".toList := by decide
example :
    sanitize_prompt "mail me@host.org now 9876543210".toList
      = "mail [REDACTED] now [REDACTED]".toList := by decide
example : truncate_prompt 2 "abcdefghij".toList = "abcdefgh".toList := by decide
example :
    generate_reply ⟨"mock".toList, 500⟩ ⟨none, none, 0⟩ "hi".toList "en".toList none
      = ("Thank you for your question. Is there anything else I can help you with?".toList,
          0.8, false) := rfl
example :
    generate_reply ⟨"zz".toList, 500⟩ ⟨none, none, 0⟩ "hi".toList "en".toList none
      = ("How can I help you today?".toList, 0.5, true) := rfl
example :
    build_conversation_context (some ⟨[⟨"user".toList, "hi".toList, "general".toList⟩,
      ⟨"ai".toList, "yo".toList, "general".toList⟩,
      ⟨"user".toList, "x".toList, "policy".toList⟩]⟩)
      = "User: hi\nAssistant: yo\n\n".toList := by decide
example :
    (support_message_post ⟨"en".toList, 3, true, some "x".toList⟩
      ⟨"Hello".toList, "user".toList, none⟩
      ⟨⟨"mock".toList, 500⟩, ⟨none, none, 0⟩, none, []⟩).aiReply.isSome = true := by decide
example :
    support_message_post ⟨"en".toList, 0, false, none⟩
      ⟨"I want to talk to a human agent".toList, "user".toList, none⟩
      ⟨⟨"mock".toList, 500⟩, ⟨none, none, 0⟩, none, []⟩
      = .created ⟨"en".toList, 2, true, some "I want to talk to a human agent".toList⟩
          ⟨"user".toList, "I want to talk to a human agent".toList, "en".toList,
            "escalation".toList, none⟩
          (some ⟨"ai".toList, "I am connecting you to a support executive.".toList,
            "en".toList, "escalation".toList, some 1⟩)
          "en".toList "en".toList "escalation".toList := rfl
end CrossChecks
